import Mathlib

/-!
Shallow embedding of the persistence/upsert layer of the stockmanager
importer (src/stocks_importer/src/services/DBService.ts, main.ts, and the
earlier DBService revisions kept under src/unnamed).  Loosely-typed
JavaScript values are modelled by `Js`; each relational table is a list of
rows; each `upsertX` method of DBService is transcribed as a function from
the incoming document fragment and the current table state to the new
table state (or to `Except` when the underlying SQL statement can fail
with a constraint violation).  `CURRENT_TIMESTAMP` is modelled by an
explicit `now : Nat` argument.
-/

namespace StockManager

/-- A JavaScript value as it appears in the loosely-typed documents the
importer receives: `undefined`, `null`, numbers, strings, booleans, and
plain objects (ordered field lists). -/
inductive Js where
  | undef : Js
  | null : Js
  | num (n : Int) : Js
  | str (s : String) : Js
  | bool (b : Bool) : Js
  | obj (fields : List (String × Js)) : Js
  deriving Repr

mutual

/-- Structural equality on JavaScript values, used to model SQLite's value
comparison when an incoming natural key is matched against stored rows. -/
def Js.beq : Js → Js → Bool
  | .undef, .undef => true
  | .null, .null => true
  | .num a, .num b => a == b
  | .str a, .str b => a == b
  | .bool a, .bool b => a == b
  | .obj a, .obj b => Js.beqFields a b
  | _, _ => false

/-- Structural equality on object field lists. -/
def Js.beqFields : List (String × Js) → List (String × Js) → Bool
  | [], [] => true
  | (k, v) :: r, (k2, v2) :: r2 => k == k2 && Js.beq v v2 && Js.beqFields r r2
  | _, _ => false

end

/-- JavaScript truthiness: `undefined`, `null`, `0`, the empty string and
`false` are falsy; every object is truthy. -/
def Js.truthy : Js → Bool
  | .undef => false
  | .null => false
  | .num n => n != 0
  | .str s => s != ""
  | .bool b => b
  | .obj _ => true

/-- The JavaScript expression `a || b`. -/
def Js.orElse (a b : Js) : Js := if a.truthy then a else b

/-- The pattern `x || null` used throughout DBService to default a field. -/
def Js.orNull (a : Js) : Js := Js.orElse a Js.null

/-- Nullish test for the `??` operator and for `?.` short-circuiting. -/
def Js.nullish : Js → Bool
  | .undef => true
  | .null => true
  | _ => false

/-- The JavaScript expression `a ?? b` (nullish coalescing). -/
def Js.coalesce (a b : Js) : Js := if a.nullish then b else a

/-- Field lookup inside an object's field list; `undefined` when absent. -/
def Js.getField : List (String × Js) → String → Js
  | [], _ => .undef
  | (k, v) :: rest, key => if k = key then v else Js.getField rest key

/-- Plain member access `v.key`.  Throws a TypeError when the receiver is
`null` or `undefined`; yields `undefined` on primitives (JS semantics). -/
def Js.dot : Js → String → Except String Js
  | .obj fs, key => .ok (Js.getField fs key)
  | .undef, key => .error ("TypeError: cannot read properties of undefined, reading " ++ key)
  | .null, key => .error ("TypeError: cannot read properties of null, reading " ++ key)
  | _, _ => .ok (.undef)

/-- Optional chaining `v?.key`: short-circuits to `undefined` on a nullish
receiver, otherwise behaves as plain member access. -/
def Js.optDot (v : Js) (key : String) : Except String Js :=
  if v.nullish then .ok .undef else v.dot key

/-- Total member access for a receiver already known to be delivered as a
plain (non-nullish) value: objects look up the field, primitives give
`undefined`, exactly as `Js.dot` does on non-nullish receivers. -/
def Js.get (v : Js) (key : String) : Js :=
  match v with
  | .obj fs => Js.getField fs key
  | _ => (.undef)

/-! ## recommendation_trend (DBService.ts:86-100, 842-875; src/unnamed/part_007:299-328) -/

/-- One element of `recommendationTrend.trend` as consumed by
`upsertRecommendationTrend`: the fields the statement binds. -/
structure TrendItem where
  period : Js
  strongBuy : Js
  buy : Js
  hold : Js
  sell : Js
  strongSell : Js

/-- A row of the `recommendation_trend` table
(DDL at DBService.ts:87-100, PRIMARY KEY (symbol, period)). -/
structure RecommendationTrendRow where
  symbol : String
  period : Js
  strongBuy : Js
  buy : Js
  hold : Js
  sell : Js
  strongSell : Js
  last_updated : Nat

/-- Key predicate of the `recommendation_trend` primary key (symbol, period). -/
def recommendationTrendKey (symbol : String) (period : Js) (r : RecommendationTrendRow) : Bool :=
  r.symbol == symbol && Js.beq r.period period

/-- One `INSERT ... ON CONFLICT(symbol, period) DO UPDATE SET ...` statement
of the current `upsertRecommendationTrend` (DBService.ts:843-868): the
params are `[symbol, item.period, item.strongBuy || null, item.buy || null,
item.hold || null, item.sell || null, item.strongSell || null]`; on
conflict every count column and `last_updated` is overwritten. -/
def recommendationTrendRunOne (now : Nat) (symbol : String) (item : TrendItem)
    (t : List RecommendationTrendRow) : List RecommendationTrendRow :=
  if t.any (recommendationTrendKey symbol item.period) then
    t.map (fun r =>
      if recommendationTrendKey symbol item.period r then
        { r with
          strongBuy := item.strongBuy.orNull
          buy := item.buy.orNull
          hold := item.hold.orNull
          sell := item.sell.orNull
          strongSell := item.strongSell.orNull
          last_updated := now }
      else r)
  else
    t ++ [{ symbol := symbol
            period := item.period
            strongBuy := item.strongBuy.orNull
            buy := item.buy.orNull
            hold := item.hold.orNull
            sell := item.sell.orNull
            strongSell := item.strongSell.orNull
            last_updated := now }]

/-- `upsertRecommendationTrend` as it stands in the current
DBService.ts:842-875: it loops over the trend list running the upsert
statement per item; no DELETE is issued anywhere in the method. -/
def upsertRecommendationTrend (now : Nat) (symbol : String) (trend : List TrendItem)
    (t : List RecommendationTrendRow) : List RecommendationTrendRow :=
  trend.foldl (fun acc item => recommendationTrendRunOne now symbol item acc) t

/-- The plain `INSERT INTO recommendation_trend ... VALUES (...)` of the
superseded revision (src/unnamed/part_007:300-305): no conflict clause, so
the PRIMARY KEY (symbol, period) raises when the key already exists; that
revision binds the count fields directly, without `|| null`. -/
def recommendationTrendInsertPrev (now : Nat) (symbol : String) (item : TrendItem)
    (t : List RecommendationTrendRow) : Except String (List RecommendationTrendRow) :=
  if t.any (recommendationTrendKey symbol item.period) then
    .error "UNIQUE constraint failed: recommendation_trend.symbol, recommendation_trend.period"
  else
    .ok (t ++ [{ symbol := symbol
                 period := item.period
                 strongBuy := item.strongBuy
                 buy := item.buy
                 hold := item.hold
                 sell := item.sell
                 strongSell := item.strongSell
                 last_updated := now }])

/-- `upsertRecommendationTrend` of the superseded revision
(src/unnamed/part_007:299-328): first `DELETE FROM recommendation_trend
WHERE symbol = ?`, then insert each trend item. -/
def upsertRecommendationTrendPrev (now : Nat) (symbol : String) (trend : List TrendItem)
    (t : List RecommendationTrendRow) : Except String (List RecommendationTrendRow) :=
  let afterDelete := t.filter (fun r => !(r.symbol == symbol))
  trend.foldlM (fun acc item => recommendationTrendInsertPrev now symbol item acc) afterDelete

/-- First import of the C1 scenario: periods 0m and +1m for AAPL. -/
def trendImportOne : List TrendItem :=
  [ { period := .str "0m", strongBuy := .num 10, buy := .num 5, hold := .num 3,
      sell := .num 1, strongSell := .num 1 },
    { period := .str "+1m", strongBuy := .num 8, buy := .num 4, hold := .num 4,
      sell := .num 2, strongSell := .num 1 } ]

/-- Second import of the C1 scenario: only period 0m, with fresh counts. -/
def trendImportTwo : List TrendItem :=
  [ { period := .str "0m", strongBuy := .num 7, buy := .num 6, hold := .num 2,
      sell := .num 2, strongSell := .num 2 } ]

/-- Final recommendation_trend table after running the C1 scenario through
the current `upsertRecommendationTrend` on an empty table. -/
def recoTrendScenarioFinal : List RecommendationTrendRow :=
  upsertRecommendationTrend 2 "AAPL" trendImportTwo
    (upsertRecommendationTrend 1 "AAPL" trendImportOne [])

/-- Final recommendation_trend table after running the same C1 scenario
through the superseded revision's delete-then-reinsert method. -/
def recoTrendScenarioFinalPrev : Except String (List RecommendationTrendRow) :=
  (upsertRecommendationTrendPrev 1 "AAPL" trendImportOne []).bind
    (upsertRecommendationTrendPrev 2 "AAPL" trendImportTwo)

/-! ## The per-symbol import loop of Main.main (main.ts:74-387) -/

/-- The fate of one optional sub-document slot in the per-symbol body of
Main.main: the field may be absent from the fetched document (warn and
skip, no upsert), present with an upsert that resolves, or present with an
upsert that rejects (throws). -/
inductive SubDocFate where
  | absent : SubDocFate
  | upsertOk : SubDocFate
  | upsertThrows : SubDocFate
  deriving DecidableEq, Repr

/-- Observable outcome of one symbol's import body: the positions whose
upsert was attempted, and whether the process was terminated. -/
structure SymbolRunOutcome where
  attempted : List Nat
  processExited : Bool
  deriving DecidableEq, Repr

/-- The per-symbol body of Main.main, positions numbered from `i`.  The
whole sequence of sub-document sections (main.ts:81-381) sits inside one
`try` whose `catch` (main.ts:383-386) logs the error and calls
`process.exit(1)`; so a rejecting upsert ends the run and no later
sub-document of the symbol is attempted.  An absent sub-document is logged
at warn level and skipped without ending the run. -/
def runSymbolImportAux : Nat → List SubDocFate → SymbolRunOutcome
  | _, [] => { attempted := [], processExited := false }
  | i, .absent :: rest => runSymbolImportAux (i + 1) rest
  | i, .upsertOk :: rest =>
      let o := runSymbolImportAux (i + 1) rest
      { o with attempted := i :: o.attempted }
  | i, .upsertThrows :: _ => { attempted := [i], processExited := true }

/-- One symbol's import body, positions numbered from 0. -/
def runSymbolImport (docs : List SubDocFate) : SymbolRunOutcome :=
  runSymbolImportAux 0 docs

/-! ## assetProfile (DBService.ts:52-84, 760-840) -/

mutual

/-- Structurally-faithful stand-in for the text produced by
`JSON.stringify`: an injective encoding of the value.  It is only ever
stored as an opaque TEXT payload (the companyOfficers and sector_trend
estimate columns); no claim depends on the exact encoding. -/
def Js.encode : Js → String
  | .undef => "undefined"
  | .null => "null"
  | .num n => toString n
  | .str s => "\"" ++ s ++ "\""
  | .bool b => toString b
  | .obj fs => "(" ++ Js.encodeFields fs ++ ")"

/-- Encoding of an object's field list for `Js.encode`. -/
def Js.encodeFields : List (String × Js) → String
  | [] => ""
  | (k, v) :: rest => k ++ ":" ++ Js.encode v ++ ";" ++ Js.encodeFields rest

end

/-- Model of `JSON.stringify(v)` as used by upsertAssetProfile (line 761)
and upsertSectorTrend (line 2101). -/
def jsonStringify (v : Js) : Js := .str (Js.encode v)

/-- A row of the `assetProfile` table (DDL at DBService.ts:52-84,
PRIMARY KEY (symbol), FOREIGN KEY (symbol) ... ON DELETE CASCADE). -/
structure AssetProfileRow where
  symbol : String
  address1 : Js
  city : Js
  state : Js
  zip : Js
  country : Js
  phone : Js
  website : Js
  industry : Js
  industryKey : Js
  industryDisp : Js
  sector : Js
  sectorKey : Js
  sectorDisp : Js
  longBusinessSummary : Js
  fullTimeEmployees : Js
  companyOfficers : Js
  auditRisk : Js
  boardRisk : Js
  compensationRisk : Js
  shareHolderRightsRisk : Js
  overallRisk : Js
  governanceEpochDate : Js
  compensationAsOfEpochDate : Js
  irWebsite : Js
  maxAge : Js
  last_updated : Nat

/-- `upsertAssetProfile` (DBService.ts:760-840).  The insert binds every
column of the record directly (params at lines 798-825, the
companyOfficers column holding `JSON.stringify(assetProfile.companyOfficers)`).
On conflict on the symbol key, the `DO UPDATE SET` list (lines 770-795)
overwrites address1 through maxAge and last_updated — that list names
auditRisk and then jumps to compensationRisk: `boardRisk` does not appear
in it, so the stored boardRisk value is left as it was. -/
def upsertAssetProfile (now : Nat) (symbol : String) (ap : List (String × Js))
    (t : List AssetProfileRow) : List AssetProfileRow :=
  let g := Js.getField ap
  let companyOfficersJson := jsonStringify (g "companyOfficers")
  if t.any (fun r => r.symbol == symbol) then
    t.map (fun r =>
      if r.symbol == symbol then
        { r with
          address1 := g "address1"
          city := g "city"
          state := g "state"
          zip := g "zip"
          country := g "country"
          phone := g "phone"
          website := g "website"
          industry := g "industry"
          industryKey := g "industryKey"
          industryDisp := g "industryDisp"
          sector := g "sector"
          sectorKey := g "sectorKey"
          sectorDisp := g "sectorDisp"
          longBusinessSummary := g "longBusinessSummary"
          fullTimeEmployees := g "fullTimeEmployees"
          companyOfficers := companyOfficersJson
          auditRisk := g "auditRisk"
          compensationRisk := g "compensationRisk"
          shareHolderRightsRisk := g "shareHolderRightsRisk"
          overallRisk := g "overallRisk"
          governanceEpochDate := g "governanceEpochDate"
          compensationAsOfEpochDate := g "compensationAsOfEpochDate"
          irWebsite := g "irWebsite"
          maxAge := g "maxAge"
          last_updated := now }
      else r)
  else
    t ++ [{ symbol := symbol
            address1 := g "address1"
            city := g "city"
            state := g "state"
            zip := g "zip"
            country := g "country"
            phone := g "phone"
            website := g "website"
            industry := g "industry"
            industryKey := g "industryKey"
            industryDisp := g "industryDisp"
            sector := g "sector"
            sectorKey := g "sectorKey"
            sectorDisp := g "sectorDisp"
            longBusinessSummary := g "longBusinessSummary"
            fullTimeEmployees := g "fullTimeEmployees"
            companyOfficers := companyOfficersJson
            auditRisk := g "auditRisk"
            boardRisk := g "boardRisk"
            compensationRisk := g "compensationRisk"
            shareHolderRightsRisk := g "shareHolderRightsRisk"
            overallRisk := g "overallRisk"
            governanceEpochDate := g "governanceEpochDate"
            compensationAsOfEpochDate := g "compensationAsOfEpochDate"
            irWebsite := g "irWebsite"
            maxAge := g "maxAge"
            last_updated := now }]

/-- First asset-profile document of the C3 failing input. -/
def assetProfileDocOne : List (String × Js) :=
  [("auditRisk", .num 1), ("boardRisk", .num 1), ("overallRisk", .num 1)]

/-- Second asset-profile document of the C3 failing input: every risk
field changed. -/
def assetProfileDocTwo : List (String × Js) :=
  [("auditRisk", .num 2), ("boardRisk", .num 2), ("overallRisk", .num 2)]

/-- assetProfile table after upserting AAPL twice with the two documents. -/
def assetProfileScenarioFinal : List AssetProfileRow :=
  upsertAssetProfile 2 "AAPL" assetProfileDocTwo
    (upsertAssetProfile 1 "AAPL" assetProfileDocOne [])

/-! ## default_key_statistics and financial_data param mapping
(DBService.ts:988-1024 and 2448-2479) -/

/-- The param array built by `upsertDefaultKeyStatistics`
(DBService.ts:988-1024): after the symbol, every field is bound with the
falsy-coercing pattern `stats.field || null` (with `stats["52WeekChange"]`
and `stats.SandP52WeekChange` for the two 52-week fields).  Entry 16 is
the beta column. -/
def defaultKeyStatisticsParams (symbol : String) (stats : List (String × Js)) : List Js :=
  let g := Js.getField stats
  [ .str symbol,
    (g "priceHint").orNull,
    (g "enterpriseValue").orNull,
    (g "forwardPE").orNull,
    (g "profitMargins").orNull,
    (g "floatShares").orNull,
    (g "sharesOutstanding").orNull,
    (g "sharesShort").orNull,
    (g "sharesShortPriorMonth").orNull,
    (g "sharesShortPreviousMonthDate").orNull,
    (g "dateShortInterest").orNull,
    (g "sharesPercentSharesOut").orNull,
    (g "heldPercentInsiders").orNull,
    (g "heldPercentInstitutions").orNull,
    (g "shortRatio").orNull,
    (g "shortPercentOfFloat").orNull,
    (g "beta").orNull,
    (g "impliedSharesOutstanding").orNull,
    (g "bookValue").orNull,
    (g "priceToBook").orNull,
    (g "lastFiscalYearEnd").orNull,
    (g "nextFiscalYearEnd").orNull,
    (g "mostRecentQuarter").orNull,
    (g "earningsQuarterlyGrowth").orNull,
    (g "netIncomeToCommon").orNull,
    (g "trailingEps").orNull,
    (g "forwardEps").orNull,
    (g "lastSplitFactor").orNull,
    (g "lastSplitDate").orNull,
    (g "enterpriseToRevenue").orNull,
    (g "enterpriseToEbitda").orNull,
    (g "52WeekChange").orNull,
    (g "SandP52WeekChange").orNull,
    (g "lastDividendValue").orNull,
    (g "lastDividendDate").orNull ]

/-- The param array built by `upsertFinancialData` (DBService.ts:2448-2479):
after the symbol, every field is bound with the nullish-coalescing pattern
`financialData.field ?? null`, which preserves present zeroes.  Entry 1 is
the current_price column. -/
def financialDataParams (symbol : String) (financialData : List (String × Js)) : List Js :=
  let g := Js.getField financialData
  [ .str symbol,
    (g "currentPrice").coalesce .null,
    (g "targetHighPrice").coalesce .null,
    (g "targetLowPrice").coalesce .null,
    (g "targetMeanPrice").coalesce .null,
    (g "targetMedianPrice").coalesce .null,
    (g "recommendationMean").coalesce .null,
    (g "recommendationKey").coalesce .null,
    (g "numberOfAnalystOpinions").coalesce .null,
    (g "totalCash").coalesce .null,
    (g "totalCashPerShare").coalesce .null,
    (g "ebitda").coalesce .null,
    (g "totalDebt").coalesce .null,
    (g "quickRatio").coalesce .null,
    (g "currentRatio").coalesce .null,
    (g "totalRevenue").coalesce .null,
    (g "debtToEquity").coalesce .null,
    (g "revenuePerShare").coalesce .null,
    (g "returnOnAssets").coalesce .null,
    (g "returnOnEquity").coalesce .null,
    (g "grossProfits").coalesce .null,
    (g "freeCashflow").coalesce .null,
    (g "operatingCashflow").coalesce .null,
    (g "earningsGrowth").coalesce .null,
    (g "revenueGrowth").coalesce .null,
    (g "grossMargins").coalesce .null,
    (g "ebitdaMargins").coalesce .null,
    (g "operatingMargins").coalesce .null,
    (g "profitMargins").coalesce .null,
    (g "financialCurrency").coalesce .null ]

/-! ## summary_detail (DBService.ts:226-269, 1166-1292) -/

/-- A row of the `summary_detail` table (DDL at DBService.ts:228-268,
PRIMARY KEY (symbol)); `data` holds the 35 non-key columns, priceHint
through currency, in the order of the INSERT column list. -/
structure SummaryDetailRow where
  symbol : String
  data : List Js
  last_updated : Nat

/-- The param array built by `upsertSummaryDetail` (DBService.ts:1246-1283):
the 35 non-key columns after the symbol, each bound as
`summaryDetail.field || null`, in the column order of the statement. -/
def summaryDetailParams (sd : List (String × Js)) : List Js :=
  let g := Js.getField sd
  [ (g "priceHint").orNull,
    (g "previousClose").orNull,
    (g "open").orNull,
    (g "dayLow").orNull,
    (g "dayHigh").orNull,
    (g "regularMarketPreviousClose").orNull,
    (g "regularMarketOpen").orNull,
    (g "regularMarketDayLow").orNull,
    (g "regularMarketDayHigh").orNull,
    (g "dividendRate").orNull,
    (g "dividendYield").orNull,
    (g "exDividendDate").orNull,
    (g "payoutRatio").orNull,
    (g "fiveYearAvgDividendYield").orNull,
    (g "beta").orNull,
    (g "trailingPE").orNull,
    (g "forwardPE").orNull,
    (g "volume").orNull,
    (g "regularMarketVolume").orNull,
    (g "averageVolume").orNull,
    (g "averageVolume10days").orNull,
    (g "averageDailyVolume10Day").orNull,
    (g "bid").orNull,
    (g "ask").orNull,
    (g "bidSize").orNull,
    (g "askSize").orNull,
    (g "marketCap").orNull,
    (g "fiftyTwoWeekLow").orNull,
    (g "fiftyTwoWeekHigh").orNull,
    (g "priceToSalesTrailing12Months").orNull,
    (g "fiftyDayAverage").orNull,
    (g "twoHundredDayAverage").orNull,
    (g "trailingAnnualDividendRate").orNull,
    (g "trailingAnnualDividendYield").orNull,
    (g "currency").orNull ]

/-- The `ON CONFLICT(symbol) DO UPDATE SET` action of `upsertSummaryDetail`
(DBService.ts:1207-1243): on the row matching the symbol key, every one of
the 35 non-key columns is assigned its excluded value — priceHint through
currency, one `SET` entry per column — and last_updated is refreshed, so
the row's data projection becomes exactly the incoming params. -/
def summaryDetailConflictUpdate (now : Nat) (symbol : String) (params : List Js)
    (r : SummaryDetailRow) : SummaryDetailRow :=
  if r.symbol == symbol then { r with data := params, last_updated := now } else r

/-- `upsertSummaryDetail` (DBService.ts:1166-1292): insert the symbol and
all 35 non-key columns, resolving a conflict on the symbol key with the
full-overwrite update action above. -/
def upsertSummaryDetail (now : Nat) (symbol : String) (sd : List (String × Js))
    (t : List SummaryDetailRow) : List SummaryDetailRow :=
  let params := summaryDetailParams sd
  if t.any (fun r => r.symbol == symbol) then
    t.map (summaryDetailConflictUpdate now symbol params)
  else
    t ++ [{ symbol := symbol, data := params, last_updated := now }]

/-! ## fund_ownership (DBService.ts:203-224, 1109-1164) -/

/-- A row of the `fund_ownership` table (DDL at DBService.ts:205-223,
PRIMARY KEY (symbol, reportDate_raw, organization)). -/
structure FundOwnershipRow where
  symbol : String
  reportDate_raw : Js
  reportDate_fmt : Js
  organization : Js
  pctHeld_raw : Js
  pctHeld_fmt : Js
  position_raw : Js
  position_fmt : Js
  position_longFmt : Js
  value_raw : Js
  value_fmt : Js
  value_longFmt : Js
  pctChange_raw : Js
  pctChange_fmt : Js
  last_updated : Nat

/-- The recurring binding pattern `item.wrapper?.key || null` used for the
wrapped value triplets: plain member access on the (object) list element,
optional chaining into the wrapper, then falsy defaulting. -/
def wrappedOrNull (item : List (String × Js)) (w k : String) : Js :=
  let wv := Js.getField item w
  (if wv.nullish then Js.undef else wv.get k).orNull

/-- The natural-key match of one fund-ownership statement: the stored row
conflicts with the incoming element when symbol, reportDate_raw and
organization all coincide (the three PRIMARY KEY columns, bound from
`ownership.reportDate?.raw || null` and `ownership.organization || null`). -/
def fundOwnershipKey (symbol : String) (item : List (String × Js))
    (r : FundOwnershipRow) : Bool :=
  r.symbol == symbol
    && Js.beq r.reportDate_raw (wrappedOrNull item "reportDate" "raw")
    && Js.beq r.organization (Js.getField item "organization").orNull

/-- One `INSERT ... ON CONFLICT(symbol, reportDate_raw, organization)
DO UPDATE SET ...` statement of `upsertFundOwnership`
(DBService.ts:1110-1157): params bound per lines 1136-1155; on conflict
every non-key column and last_updated is overwritten; no DELETE exists in
the method. -/
def fundOwnershipRunOne (now : Nat) (symbol : String) (item : List (String × Js))
    (t : List FundOwnershipRow) : List FundOwnershipRow :=
  if t.any (fundOwnershipKey symbol item) then
    t.map (fun r =>
      if fundOwnershipKey symbol item r then
        { r with
          reportDate_fmt := wrappedOrNull item "reportDate" "fmt"
          pctHeld_raw := wrappedOrNull item "pctHeld" "raw"
          pctHeld_fmt := wrappedOrNull item "pctHeld" "fmt"
          position_raw := wrappedOrNull item "position" "raw"
          position_fmt := wrappedOrNull item "position" "fmt"
          position_longFmt := wrappedOrNull item "position" "longFmt"
          value_raw := wrappedOrNull item "value" "raw"
          value_fmt := wrappedOrNull item "value" "fmt"
          value_longFmt := wrappedOrNull item "value" "longFmt"
          pctChange_raw := wrappedOrNull item "pctChange" "raw"
          pctChange_fmt := wrappedOrNull item "pctChange" "fmt"
          last_updated := now }
      else r)
  else
    t ++ [{ symbol := symbol
            reportDate_raw := wrappedOrNull item "reportDate" "raw"
            reportDate_fmt := wrappedOrNull item "reportDate" "fmt"
            organization := (Js.getField item "organization").orNull
            pctHeld_raw := wrappedOrNull item "pctHeld" "raw"
            pctHeld_fmt := wrappedOrNull item "pctHeld" "fmt"
            position_raw := wrappedOrNull item "position" "raw"
            position_fmt := wrappedOrNull item "position" "fmt"
            position_longFmt := wrappedOrNull item "position" "longFmt"
            value_raw := wrappedOrNull item "value" "raw"
            value_fmt := wrappedOrNull item "value" "fmt"
            value_longFmt := wrappedOrNull item "value" "longFmt"
            pctChange_raw := wrappedOrNull item "pctChange" "raw"
            pctChange_fmt := wrappedOrNull item "pctChange" "fmt"
            last_updated := now }]

/-- `upsertFundOwnership` (DBService.ts:1109-1164): one upsert statement per
element of the ownership list, in order; purely additive, never deleting. -/
def upsertFundOwnership (now : Nat) (symbol : String)
    (ownershipList : List (List (String × Js))) (t : List FundOwnershipRow) :
    List FundOwnershipRow :=
  ownershipList.foldl (fun acc item => fundOwnershipRunOne now symbol item acc) t

/-- The VANGUARD@D1 element of the C6 scenario's first import. -/
def fundItemVanguard : List (String × Js) :=
  [ ("reportDate", .obj [("raw", .num 100), ("fmt", .str "D1")]),
    ("organization", .str "VANGUARD"),
    ("pctHeld", .obj [("raw", .num 1)]) ]

/-- The FIDELITY@D2 element of the C6 scenario's second import, which omits
VANGUARD entirely. -/
def fundItemFidelity : List (String × Js) :=
  [ ("reportDate", .obj [("raw", .num 200), ("fmt", .str "D2")]),
    ("organization", .str "FIDELITY"),
    ("pctHeld", .obj [("raw", .num 2)]) ]

/-- fund_ownership table after the first C6 import (VANGUARD@D1 only). -/
def fundTableAfterFirst : List FundOwnershipRow :=
  upsertFundOwnership 1 "AAPL" [fundItemVanguard] []

/-- fund_ownership table after the second C6 import (FIDELITY@D2 only). -/
def fundScenarioFinal : List FundOwnershipRow :=
  upsertFundOwnership 2 "AAPL" [fundItemFidelity] fundTableAfterFirst

/-- The stored VANGUARD@D1 row as written by the first import. -/
def fundRowVanguard : FundOwnershipRow :=
  { symbol := "AAPL", reportDate_raw := .num 100, reportDate_fmt := .str "D1",
    organization := .str "VANGUARD", pctHeld_raw := .num 1, pctHeld_fmt := .null,
    position_raw := .null, position_fmt := .null, position_longFmt := .null,
    value_raw := .null, value_fmt := .null, value_longFmt := .null,
    pctChange_raw := .null, pctChange_fmt := .null, last_updated := 1 }

/-- The stored FIDELITY@D2 row as written by the second import. -/
def fundRowFidelity : FundOwnershipRow :=
  { symbol := "AAPL", reportDate_raw := .num 200, reportDate_fmt := .str "D2",
    organization := .str "FIDELITY", pctHeld_raw := .num 2, pctHeld_fmt := .null,
    position_raw := .null, position_fmt := .null, position_longFmt := .null,
    value_raw := .null, value_fmt := .null, value_longFmt := .null,
    pctChange_raw := .null, pctChange_fmt := .null, last_updated := 2 }

/-! ## sector_trend (DBService.ts:570-580, 2082-2122) -/

/-- A row of the `sector_trend` table (DDL at DBService.ts:572-579,
PRIMARY KEY (symbol)); the method's symbol parameter is typed
`string | null`, so the symbol column is a Js value. -/
structure SectorTrendRow where
  symbol : Js
  maxAge : Js
  estimate : Js
  last_updated : Nat

/-- The plain `INSERT INTO sector_trend (symbol, maxAge, estimate,
last_updated) VALUES (?, ?, ?, CURRENT_TIMESTAMP)` statement of
`upsertSectorTrend` (DBService.ts:2083-2091): it carries NO `ON CONFLICT`
clause, so with PRIMARY KEY (symbol) SQLite raises a UNIQUE-constraint
error whenever a row with that symbol already exists. -/
def sectorTrendInsert (now : Nat) (symbol maxAge estimate : Js)
    (t : List SectorTrendRow) : Except String (List SectorTrendRow) :=
  if t.any (fun r => Js.beq r.symbol symbol) then
    .error "UNIQUE constraint failed: sector_trend.symbol"
  else
    .ok (t ++ [{ symbol := symbol, maxAge := maxAge, estimate := estimate,
                 last_updated := now }])

/-- `upsertSectorTrend` (DBService.ts:2082-2122): binds
`sectorTrend?.maxAge || null`; with an empty estimates list
(`sectorTrend?.estimates || []`) it runs a single insert with a null
estimate, otherwise one insert per estimate, the estimate serialized with
`JSON.stringify` (the estimates array is modelled as a Lean list, and the
Promise.all over the per-estimate statements as their sequential
execution on the single connection). -/
def upsertSectorTrend (now : Nat) (symbol : Js) (maxAgeField : Js) (estimates : List Js)
    (t : List SectorTrendRow) : Except String (List SectorTrendRow) :=
  let maxAge := maxAgeField.orNull
  if estimates.isEmpty then
    sectorTrendInsert now symbol maxAge .null t
  else
    estimates.foldlM (fun acc e => sectorTrendInsert now symbol maxAge (jsonStringify e) acc) t

/-- sector_trend table state produced by a first sector-trend import for
AAPL with one estimate. -/
def sectorTrendAfterFirst : Except String (List SectorTrendRow) :=
  upsertSectorTrend 1 (Js.str "AAPL") (Js.num 86400) [Js.num 1] []

/-- The row the first sector-trend import writes. -/
def sectorTrendRowOne : SectorTrendRow :=
  { symbol := .str "AAPL", maxAge := .num 86400, estimate := jsonStringify (.num 1),
    last_updated := 1 }

/-! ## cashflow_statement_history param mapping (DBService.ts:877-909) -/

/-- The flat param record one cashflow statement is mapped to
(DBService.ts:894-901): symbol, endDate raw/fmt and netIncome
raw/fmt/longFmt columns. -/
structure CashflowParams where
  symbol : Js
  endDate_raw : Js
  endDate_fmt : Js
  netIncome_raw : Js
  netIncome_fmt : Js
  netIncome_longFmt : Js

/-- The JS expression `statement.wrapper?.key || null` under full JS
member-access semantics: the plain dot may throw on a nullish receiver,
the `?.` short-circuits to undefined, and `|| null` defaults the result. -/
def wrappedExprOrNull (statement : Js) (w k : String) : Except String Js := do
  let wrapper ← statement.dot w
  let v ← wrapper.optDot k
  pure v.orNull

/-- The param construction of `upsertCashflowStatementHistory`
(DBService.ts:894-901) for one statement of the list: every column is
bound from `statement.endDate?.raw || null` -style expressions. -/
def mapCashflowStatementParams (symbol : String) (statement : Js) :
    Except String CashflowParams := do
  let edRaw ← wrappedExprOrNull statement "endDate" "raw"
  let edFmt ← wrappedExprOrNull statement "endDate" "fmt"
  let niRaw ← wrappedExprOrNull statement "netIncome" "raw"
  let niFmt ← wrappedExprOrNull statement "netIncome" "fmt"
  let niLong ← wrappedExprOrNull statement "netIncome" "longFmt"
  pure { symbol := .str symbol, endDate_raw := edRaw, endDate_fmt := edFmt,
         netIncome_raw := niRaw, netIncome_fmt := niFmt, netIncome_longFmt := niLong }

/-! ## stocks root table, foreign keys and cascade delete
(DBService.ts:28-49 and the FOREIGN KEY ... ON DELETE CASCADE clause of
every dependent DDL; src/unnamed/part_001:22-48) -/

/-- A row of the `stocks` root table (DDL at DBService.ts:38-49 and
src/unnamed/part_001:22-32, PRIMARY KEY (symbol)). -/
structure StocksRow where
  symbol : String
  company_name : Js
  category_id : Js
  category_name : Js
  market_price : Js
  market_cap : Js
  last_updated : Nat

/-- The per-connection SQLite state governing foreign-key behaviour: the
`foreign_keys` pragma.  SQLite parses declared FOREIGN KEY clauses —
including their ON DELETE CASCADE actions — but enforces them on a
connection only after that connection issues `PRAGMA foreign_keys = ON`;
the shipped default is off. -/
structure SqliteConn where
  foreign_keys : Bool

/-- The connection opened by `DBService.initialize` (DBService.ts:28-31):
`open({ filename: dbPath, driver: sqlite3.Database })`.  No PRAGMA is
issued anywhere in the service, so the connection keeps SQLite's default
of foreign-key enforcement off. -/
def connWithoutPragma : SqliteConn := { foreign_keys := false }

/-- The slice of the store used for the cascade claim: the root `stocks`
table and the `assetProfile` dependent table, whose DDL declares
`FOREIGN KEY(symbol) REFERENCES stocks(symbol) ON DELETE CASCADE`
(DBService.ts:82). -/
structure StoreSlice where
  stocks : List StocksRow
  assetProfile : List AssetProfileRow

/-- `DELETE FROM stocks WHERE symbol = ?` under SQLite semantics: the
matching stocks rows are removed; the declared ON DELETE CASCADE of the
dependent table fires only when the connection enforces foreign keys —
on a default connection the dependent rows are left in place. -/
def deleteStockRow (c : SqliteConn) (symbol : String) (st : StoreSlice) : StoreSlice :=
  { stocks := st.stocks.filter (fun r => !(r.symbol == symbol))
    assetProfile :=
      if c.foreign_keys then st.assetProfile.filter (fun r => !(r.symbol == symbol))
      else st.assetProfile }

/-- A concrete store: the AAPL symbol record and its assetProfile row (as
written by `upsertAssetProfile` into an empty table). -/
def storeWithAppleProfile : StoreSlice :=
  { stocks := [{ symbol := "AAPL", company_name := .null, category_id := .str "tech",
                 category_name := .str "tech", market_price := .null, market_cap := .null,
                 last_updated := 1 }]
    assetProfile := upsertAssetProfile 1 "AAPL" assetProfileDocOne [] }

/-- `upsertCategory` (src/unnamed/part_001:38-48): `INSERT INTO stocks
(symbol, category_id, category_name, last_updated) VALUES (?, ?, ?,
CURRENT_TIMESTAMP) ON CONFLICT(symbol) DO UPDATE SET category_id =
excluded.category_id, category_name = excluded.category_name,
last_updated = CURRENT_TIMESTAMP`.  company_name, market_price and
market_cap appear in neither the insert column list (they default to NULL
on a fresh row) nor the update list (they are left unchanged on an
existing row). -/
def upsertCategory (now : Nat) (symbol : String) (categoryId categoryName : Js)
    (t : List StocksRow) : List StocksRow :=
  if t.any (fun r => r.symbol == symbol) then
    t.map (fun r =>
      if r.symbol == symbol then
        { r with category_id := categoryId, category_name := categoryName,
                 last_updated := now }
      else r)
  else
    t ++ [{ symbol := symbol, company_name := .null, category_id := categoryId,
            category_name := categoryName, market_price := .null, market_cap := .null,
            last_updated := now }]

/-- An existing stocks row with stored name, price and cap snapshots. -/
def stocksRowApple : StocksRow :=
  { symbol := "AAPL", company_name := .str "Apple Inc.", category_id := .str "old",
    category_name := .str "Old", market_price := .num 150, market_cap := .num 3000,
    last_updated := 1 }

/-! # Theorems -/

/-- C1 counterexample: importing AAPL with recommendation-trend periods
0m and +1m, then re-importing only 0m, through the current
`upsertRecommendationTrend` leaves TWO rows and the stale +1m row is still
present — refuting the claim that the upsert first deletes every existing
recommendation_trend row for the symbol so that exactly one row remains. -/
theorem upsertRecommendationTrend_stale_period_lingers :
    recoTrendScenarioFinal.length = 2 ∧
    recoTrendScenarioFinal.map (fun r => r.period) = [Js.str "0m", Js.str "+1m"] := by
  constructor <;> rfl

/-- C1 amended: the current `upsertRecommendationTrend` issues no DELETE:
each item is upserted keyed by (symbol, period), so the scenario ends with
the 0m row overwritten in place and the stale +1m row intact; the
delete-all-for-symbol-then-reinsert policy exists only in the superseded
revision (src/unnamed/part_007), under which the same scenario ends with
exactly the single 0m row. -/
theorem upsertRecommendationTrend_pure_upsert_vs_prev_delete_reinsert :
    recoTrendScenarioFinal =
      [ { symbol := "AAPL", period := .str "0m", strongBuy := .num 7, buy := .num 6,
          hold := .num 2, sell := .num 2, strongSell := .num 2, last_updated := 2 },
        { symbol := "AAPL", period := .str "+1m", strongBuy := .num 8, buy := .num 4,
          hold := .num 4, sell := .num 2, strongSell := .num 1, last_updated := 1 } ] ∧
    recoTrendScenarioFinalPrev =
      .ok [ { symbol := "AAPL", period := .str "0m", strongBuy := .num 7, buy := .num 6,
              hold := .num 2, sell := .num 2, strongSell := .num 2, last_updated := 2 } ] := by
  constructor <;> rfl

/-- Helper for the C2 theorems: in the per-symbol body, once the upsert at
the position right after `pre` throws, the process exits and no position
beyond it is attempted, for any starting index. -/
theorem runSymbolImportAux_throws_bound (pre : List SubDocFate) :
    ∀ (i : Nat) (rest : List SubDocFate), (∀ d ∈ pre, d ≠ SubDocFate.upsertThrows) →
      (runSymbolImportAux i (pre ++ SubDocFate.upsertThrows :: rest)).processExited = true ∧
      ∀ j ∈ (runSymbolImportAux i (pre ++ SubDocFate.upsertThrows :: rest)).attempted,
        j ≤ i + pre.length := by
  induction pre with
  | nil =>
      intro i rest _
      refine ⟨rfl, ?_⟩
      intro j hj
      simp only [List.nil_append, runSymbolImportAux] at hj
      simp only [List.mem_singleton] at hj
      omega
  | cons d pre ih =>
      intro i rest h
      have hd : d ≠ SubDocFate.upsertThrows := h d (List.mem_cons_self d pre)
      have hpre : ∀ x ∈ pre, x ≠ SubDocFate.upsertThrows :=
        fun x hx => h x (List.mem_cons_of_mem d hx)
      cases d with
      | absent =>
          have := ih (i + 1) rest hpre
          simp only [List.cons_append, runSymbolImportAux]
          refine ⟨this.1, ?_⟩
          intro j hj
          have := this.2 j hj
          simp only [List.length_cons]
          omega
      | upsertOk =>
          have hrec := ih (i + 1) rest hpre
          simp only [List.cons_append, runSymbolImportAux]
          refine ⟨hrec.1, ?_⟩
          intro j hj
          simp only [List.mem_cons] at hj
          rcases hj with rfl | hj
          · simp only [List.length_cons]; omega
          · have := hrec.2 j hj
            simp only [List.length_cons]
            omega
      | upsertThrows => exact absurd rfl hd

/-- C2 amended: a write failure for one sub-document's upsert is logged but
then aborts the whole run — the error propagates to the per-symbol catch
in Main.main, which calls process.exit(1) — so with the failing
sub-document sitting right after the prefix `pre` of non-throwing slots,
the process exits and no sub-document after the failing one is attempted. -/
theorem mainLoop_upsert_failure_exits_process (pre rest : List SubDocFate)
    (h : ∀ d ∈ pre, d ≠ SubDocFate.upsertThrows) :
    (runSymbolImport (pre ++ SubDocFate.upsertThrows :: rest)).processExited = true ∧
    ∀ j ∈ (runSymbolImport (pre ++ SubDocFate.upsertThrows :: rest)).attempted,
      j ≤ pre.length := by
  have := runSymbolImportAux_throws_bound pre 0 rest h
  simpa [runSymbolImport] using this

/-- C2 witness: a symbol whose sub-documents are [succeeding, throwing,
succeeding]: the process exits and every attempted position is at most 1,
so the third sub-document is never attempted. -/
theorem mainLoop_upsert_failure_exits_process_witness :
    (runSymbolImport
        [SubDocFate.upsertOk, SubDocFate.upsertThrows, SubDocFate.upsertOk]).processExited
      = true ∧
    ∀ j ∈ (runSymbolImport
        [SubDocFate.upsertOk, SubDocFate.upsertThrows, SubDocFate.upsertOk]).attempted,
      j ≤ 1 := by
  have := mainLoop_upsert_failure_exits_process
    [SubDocFate.upsertOk] [SubDocFate.upsertOk] (by decide)
  simpa using this

/-- C3: upserting the AAPL asset profile twice, with every risk field at 1
and then at 2, leaves the single row with auditRisk and overallRisk
overwritten to 2 but boardRisk still at its FIRST value — the
`ON CONFLICT ... DO UPDATE SET` list of upsertAssetProfile omits
boardRisk, so this non-key column is not overwritten on conflict,
contradicting the claimed (and spec-mandated) overwrite of every non-key
column. -/
theorem upsertAssetProfile_boardRisk_not_overwritten :
    (assetProfileScenarioFinal.map fun r => (r.auditRisk, r.boardRisk, r.overallRisk)) =
      [(Js.num 2, Js.num 1, Js.num 2)] := by
  rfl

/-- C4: a present zero is NOT persisted as 0 by the default-key-statistics
mapping: with `beta` present and equal to 0, the bound beta param (entry
16) is null, because `stats.beta || null` treats 0 as falsy; by contrast
the financial-data mapping, which uses `?? null`, preserves a present zero
`currentPrice`.  This refutes the claim for the cited
upsertDefaultKeyStatistics mapping. -/
theorem defaultKeyStatistics_zero_coerced_to_null :
    (defaultKeyStatisticsParams "AAPL" [("beta", Js.num 0)])[16]? = some Js.null ∧
    (financialDataParams "AAPL" [("currentPrice", Js.num 0)])[1]? = some (Js.num 0) := by
  constructor <;> rfl

/-- Helper: the summary-detail conflict update never changes a row's symbol. -/
theorem summaryDetailConflictUpdate_symbol (now : Nat) (s : String) (ps : List Js)
    (r : SummaryDetailRow) : (summaryDetailConflictUpdate now s ps r).symbol = r.symbol := by
  unfold summaryDetailConflictUpdate
  by_cases h : r.symbol == s <;> simp [h]

/-- Helper: after one summary-detail upsert, every row holding the symbol
key stores exactly the incoming params as its data projection. -/
theorem upsertSummaryDetail_data_of_key (now : Nat) (s : String) (sd : List (String × Js))
    (t : List SummaryDetailRow) :
    ∀ r ∈ upsertSummaryDetail now s sd t, r.symbol == s → r.data = summaryDetailParams sd := by
  intro r hr hkey
  unfold upsertSummaryDetail at hr
  by_cases hA : t.any (fun x => x.symbol == s) = true
  · rw [if_pos hA] at hr
    obtain ⟨r0, _, rfl⟩ := List.mem_map.mp hr
    by_cases h0 : r0.symbol == s
    · simp [summaryDetailConflictUpdate, h0]
    · rw [summaryDetailConflictUpdate, if_neg h0] at hkey
      exact absurd hkey h0
  · rw [if_neg hA] at hr
    rcases List.mem_append.mp hr with hmem | hnew
    · have hall := List.any_eq_false.mp (Bool.of_not_eq_true hA)
      exact absurd hkey (hall r hmem)
    · rw [List.mem_singleton.mp hnew]

/-- Helper: after one summary-detail upsert, some row holds the symbol key. -/
theorem upsertSummaryDetail_any_key (now : Nat) (s : String) (sd : List (String × Js))
    (t : List SummaryDetailRow) :
    (upsertSummaryDetail now s sd t).any (fun r => r.symbol == s) = true := by
  unfold upsertSummaryDetail
  by_cases hA : t.any (fun r => r.symbol == s) = true
  · rw [if_pos hA]
    rw [List.any_eq_true] at hA ⊢
    obtain ⟨r0, hr0, hk⟩ := hA
    refine ⟨summaryDetailConflictUpdate now s (summaryDetailParams sd) r0,
      List.mem_map_of_mem _ hr0, ?_⟩
    rw [summaryDetailConflictUpdate_symbol]
    exact hk
  · rw [if_neg hA]
    rw [List.any_eq_true]
    exact ⟨_, List.mem_append_right _ (List.mem_singleton.mpr rfl), by simp⟩

/-- Helper: one summary-detail upsert leaves exactly one row with the
symbol key, provided the table respected the primary key before. -/
theorem upsertSummaryDetail_countP (now : Nat) (s : String) (sd : List (String × Js))
    (t : List SummaryDetailRow) (huniq : t.countP (fun r => r.symbol == s) ≤ 1) :
    (upsertSummaryDetail now s sd t).countP (fun r => r.symbol == s) = 1 := by
  unfold upsertSummaryDetail
  by_cases hA : t.any (fun r => r.symbol == s) = true
  · rw [if_pos hA, List.countP_map]
    have hcongr : t.countP
        ((fun r => r.symbol == s) ∘ summaryDetailConflictUpdate now s (summaryDetailParams sd))
        = t.countP (fun r => r.symbol == s) := by
      apply List.countP_congr
      intro r _
      simp [Function.comp, summaryDetailConflictUpdate_symbol]
    rw [hcongr]
    obtain ⟨r0, hr0, hk⟩ := List.any_eq_true.mp hA
    have hpos : 0 < t.countP (fun r => r.symbol == s) :=
      List.countP_pos_iff.mpr ⟨r0, hr0, hk⟩
    omega
  · rw [if_neg hA, List.countP_append]
    have hall := List.any_eq_false.mp (Bool.of_not_eq_true hA)
    have h0 : t.countP (fun r => r.symbol == s) = 0 :=
      List.countP_eq_zero.mpr hall
    simp [h0, List.countP_cons]

/-- Helper: when some row already holds the symbol key and every such row
already stores the incoming params, the upsert leaves the
symbol-and-data projection of the table unchanged. -/
theorem upsertSummaryDetail_map_proj (now : Nat) (s : String) (sd : List (String × Js))
    (t : List SummaryDetailRow)
    (hdata : ∀ r ∈ t, r.symbol == s → r.data = summaryDetailParams sd)
    (hA : t.any (fun r => r.symbol == s) = true) :
    (upsertSummaryDetail now s sd t).map (fun r => (r.symbol, r.data)) =
      t.map (fun r => (r.symbol, r.data)) := by
  unfold upsertSummaryDetail
  rw [if_pos hA, List.map_map]
  apply List.map_congr_left
  intro r hr
  by_cases hk : r.symbol == s
  · simp [Function.comp, summaryDetailConflictUpdate, hk, hdata r hr hk]
  · simp [Function.comp, summaryDetailConflictUpdate, hk]

/-- C5: upserting the same summary-detail sub-document twice with identical
content is idempotent on data: provided the table satisfies the
primary-key invariant (at most one row for the symbol), after the second
upsert the table holds exactly one row with the document's natural key,
and the symbol-and-data projection of the whole table — every column
except last_updated — is unchanged from its state after the first upsert. -/
theorem upsertSummaryDetail_idempotent (t : List SummaryDetailRow) (s : String)
    (sd : List (String × Js)) (n1 n2 : Nat)
    (huniq : t.countP (fun r => r.symbol == s) ≤ 1) :
    (upsertSummaryDetail n2 s sd (upsertSummaryDetail n1 s sd t)).countP
        (fun r => r.symbol == s) = 1 ∧
    (upsertSummaryDetail n2 s sd (upsertSummaryDetail n1 s sd t)).map
        (fun r => (r.symbol, r.data)) =
      (upsertSummaryDetail n1 s sd t).map (fun r => (r.symbol, r.data)) := by
  have hu1 := upsertSummaryDetail_countP n1 s sd t huniq
  refine ⟨upsertSummaryDetail_countP n2 s sd _ (le_of_eq hu1), ?_⟩
  exact upsertSummaryDetail_map_proj n2 s sd _ (upsertSummaryDetail_data_of_key n1 s sd t)
    (upsertSummaryDetail_any_key n1 s sd t)

/-- C5 witness: upserting the same summary-detail document for AAPL twice
into the empty table leaves exactly one AAPL row, whose data equals its
state after the first upsert. -/
theorem upsertSummaryDetail_idempotent_witness :
    (upsertSummaryDetail 2 "AAPL" [("priceHint", Js.num 2)]
        (upsertSummaryDetail 1 "AAPL" [("priceHint", Js.num 2)] [])).countP
        (fun r => r.symbol == "AAPL") = 1 ∧
    (upsertSummaryDetail 2 "AAPL" [("priceHint", Js.num 2)]
        (upsertSummaryDetail 1 "AAPL" [("priceHint", Js.num 2)] [])).map
        (fun r => (r.symbol, r.data)) =
      (upsertSummaryDetail 1 "AAPL" [("priceHint", Js.num 2)] []).map
        (fun r => (r.symbol, r.data)) :=
  upsertSummaryDetail_idempotent [] "AAPL" [("priceHint", Js.num 2)] 1 2 (by decide)

/-- C6: the fund-ownership reconciliation policy is purely additive: a
stored row whose (symbol, reportDate_raw, organization) key matches no
element of the incoming ownership list survives the upsert completely
unchanged — no row is ever deleted by `upsertFundOwnership`. -/
theorem upsertFundOwnership_additive (now : Nat) (s : String)
    (ownershipList : List (List (String × Js))) (t : List FundOwnershipRow)
    (row : FundOwnershipRow) (hmem : row ∈ t)
    (hkeys : ∀ item ∈ ownershipList, fundOwnershipKey s item row = false) :
    row ∈ upsertFundOwnership now s ownershipList t := by
  induction ownershipList generalizing t with
  | nil => simpa [upsertFundOwnership] using hmem
  | cons item rest ih =>
      have hk : fundOwnershipKey s item row = false :=
        hkeys item (List.mem_cons_self item rest)
      have hrest : ∀ it ∈ rest, fundOwnershipKey s it row = false :=
        fun it hit => hkeys it (List.mem_cons_of_mem item hit)
      have hstep : row ∈ fundOwnershipRunOne now s item t := by
        unfold fundOwnershipRunOne
        by_cases hA : t.any (fundOwnershipKey s item) = true
        · rw [if_pos hA]
          exact List.mem_map.mpr ⟨row, hmem, by rw [if_neg (by simp [hk])]⟩
        · rw [if_neg hA]
          exact List.mem_append_left _ hmem
      simpa [upsertFundOwnership] using ih (fundOwnershipRunOne now s item t) hstep hrest

/-- C6 witness: importing AAPL fund ownership with VANGUARD@D1 and then
with only FIDELITY@D2 leaves rows for both — the VANGUARD@D1 row written
by the first import survives the second import unchanged, and the
FIDELITY@D2 row is present as well. -/
theorem upsertFundOwnership_additive_witness :
    fundRowVanguard ∈ fundScenarioFinal ∧ fundRowFidelity ∈ fundScenarioFinal := by
  constructor
  · exact upsertFundOwnership_additive 2 "AAPL" [fundItemFidelity] fundTableAfterFirst
      fundRowVanguard
      (by rw [show fundTableAfterFirst = [fundRowVanguard] from rfl]
          exact List.mem_singleton.mpr rfl)
      (by intro it hit
          rw [List.mem_singleton.mp hit]
          decide)
  · rw [show fundScenarioFinal = [fundRowVanguard, fundRowFidelity] from rfl]
    exact List.mem_cons_of_mem _ (List.mem_singleton.mpr rfl)

/-- C7: `upsertSectorTrend` does not upsert: its INSERT has no ON CONFLICT
clause, so while the first import for AAPL succeeds with one row, a
second import for the same symbol fails with a UNIQUE-constraint error on the
(symbol) primary key instead of replacing the row's non-key columns — and
even a single import carrying two estimates fails on its second insert.
This refutes the claim that upserting sector-trend data for a symbol that
already has a sector_trend row succeeds and leaves one row with the new
values. -/
theorem upsertSectorTrend_fails_on_existing_row :
    sectorTrendAfterFirst = .ok [sectorTrendRowOne] ∧
    (sectorTrendAfterFirst.bind fun t1 =>
        upsertSectorTrend 2 (Js.str "AAPL") (Js.num 86400) [Js.num 2] t1)
      = .error "UNIQUE constraint failed: sector_trend.symbol" ∧
    upsertSectorTrend 1 (Js.str "AAPL") (Js.num 86400) [Js.num 1, Js.num 2] []
      = .error "UNIQUE constraint failed: sector_trend.symbol" := by
  exact ⟨rfl, rfl, rfl⟩

/-- Helper: optional chaining never throws: `v?.k` evaluates to undefined
on a nullish receiver and to the (total) member lookup otherwise. -/
theorem Js.optDot_ok (v : Js) (k : String) :
    v.optDot k = .ok (if v.nullish then Js.undef else v.get k) := by
  cases v <;> rfl

/-- Helper: on an object receiver the whole `statement.w?.k || null`
expression evaluates without throwing, to its total counterpart. -/
theorem wrappedExprOrNull_obj (fs : List (String × Js)) (w k : String) :
    wrappedExprOrNull (Js.obj fs) w k = .ok (wrappedOrNull fs w k) := by
  unfold wrappedExprOrNull wrappedOrNull
  cases h : Js.getField fs w <;>
    simp [h, Js.dot, Js.optDot_ok, Js.nullish, Js.get] <;> rfl

/-- C8: mapping any cashflow statement that is a plain object never throws
— it yields a param record — and every absent optional piece degrades to a
null column: an absent endDate or netIncome wrapper nulls all its columns,
and a present wrapper object missing its raw/fmt/longFmt member nulls that
member's column. -/
theorem mapCashflowStatement_null_safe (symbol : String) (fs : List (String × Js)) :
    ∃ p : CashflowParams, mapCashflowStatementParams symbol (Js.obj fs) = .ok p ∧
      (Js.getField fs "endDate" = Js.undef →
        p.endDate_raw = Js.null ∧ p.endDate_fmt = Js.null) ∧
      (∀ ws, Js.getField fs "endDate" = Js.obj ws → Js.getField ws "raw" = Js.undef →
        p.endDate_raw = Js.null) ∧
      (Js.getField fs "netIncome" = Js.undef →
        p.netIncome_raw = Js.null ∧ p.netIncome_fmt = Js.null ∧
          p.netIncome_longFmt = Js.null) ∧
      (∀ ws, Js.getField fs "netIncome" = Js.obj ws → Js.getField ws "longFmt" = Js.undef →
        p.netIncome_longFmt = Js.null) := by
  refine ⟨{ symbol := Js.str symbol,
            endDate_raw := wrappedOrNull fs "endDate" "raw",
            endDate_fmt := wrappedOrNull fs "endDate" "fmt",
            netIncome_raw := wrappedOrNull fs "netIncome" "raw",
            netIncome_fmt := wrappedOrNull fs "netIncome" "fmt",
            netIncome_longFmt := wrappedOrNull fs "netIncome" "longFmt" }, ?_, ?_, ?_, ?_, ?_⟩
  · unfold mapCashflowStatementParams
    simp only [wrappedExprOrNull_obj]
    rfl
  · intro h
    constructor <;> simp [wrappedOrNull, h, Js.nullish, Js.orNull, Js.orElse, Js.truthy]
  · intro ws hws hraw
    simp [wrappedOrNull, hws, hraw, Js.nullish, Js.get, Js.orNull, Js.orElse, Js.truthy]
  · intro h
    refine ⟨?_, ?_, ?_⟩ <;>
      simp [wrappedOrNull, h, Js.nullish, Js.orNull, Js.orElse, Js.truthy]
  · intro ws hws hlong
    simp [wrappedOrNull, hws, hlong, Js.nullish, Js.get, Js.orNull, Js.orElse, Js.truthy]

/-- C8 witness: the empty-object statement maps without throwing and its
endDate_raw and netIncome_longFmt columns are null. -/
theorem mapCashflowStatement_null_safe_witness :
    ∃ p : CashflowParams, mapCashflowStatementParams "AAPL" (Js.obj []) = .ok p ∧
      p.endDate_raw = Js.null ∧ p.netIncome_longFmt = Js.null := by
  obtain ⟨p, hok, h1, _, h3, _⟩ := mapCashflowStatement_null_safe "AAPL" []
  exact ⟨p, hok, (h1 rfl).1, (h3 rfl).2.2⟩

/-- C9: on the connection as `initialize` opens it — no `PRAGMA
foreign_keys = ON` anywhere in DBService, so SQLite's default of
unenforced foreign keys applies — deleting the AAPL symbol record leaves
the dependent assetProfile row in place, still referencing "AAPL", so the
declared ON DELETE CASCADE does not preserve referential integrity; with
foreign-key enforcement switched on, the very same delete would cascade
and remove the dependent row. -/
theorem deleteStockRow_leaves_orphan_dependent_row :
    (deleteStockRow connWithoutPragma "AAPL" storeWithAppleProfile).stocks = [] ∧
    ((deleteStockRow connWithoutPragma "AAPL" storeWithAppleProfile).assetProfile.map
        fun r => r.symbol) = ["AAPL"] ∧
    (deleteStockRow { foreign_keys := true } "AAPL" storeWithAppleProfile).assetProfile
      = [] := by
  exact ⟨rfl, rfl, rfl⟩

/-- C10: when `upsertCategory` hits an existing stocks row for the symbol,
the resulting table contains a row for that symbol whose company_name,
market_price and market_cap are exactly those of the existing row, while
category_id, category_name and last_updated carry the new values. -/
theorem upsertCategory_preserves_snapshot_columns (now : Nat) (s : String)
    (cid cname : Js) (t : List StocksRow) (row : StocksRow)
    (hmem : row ∈ t) (hkey : row.symbol == s) :
    ∃ row2 ∈ upsertCategory now s cid cname t,
      row2.symbol = row.symbol ∧
      row2.company_name = row.company_name ∧
      row2.market_price = row.market_price ∧
      row2.market_cap = row.market_cap ∧
      row2.category_id = cid ∧
      row2.category_name = cname ∧
      row2.last_updated = now := by
  have hA : t.any (fun r => r.symbol == s) = true := List.any_eq_true.mpr ⟨row, hmem, hkey⟩
  unfold upsertCategory
  rw [if_pos hA]
  refine ⟨_, List.mem_map_of_mem _ hmem, ?_⟩
  simp [hkey]

/-- C10 witness: refreshing AAPL's category membership on a table holding
an AAPL row with stored name, price and cap leaves those three columns
untouched while the category columns take the new values. -/
theorem upsertCategory_preserves_snapshot_columns_witness :
    ∃ row2 ∈ upsertCategory 2 "AAPL" (Js.str "tech") (Js.str "Tech") [stocksRowApple],
      row2.symbol = "AAPL" ∧
      row2.company_name = Js.str "Apple Inc." ∧
      row2.market_price = Js.num 150 ∧
      row2.market_cap = Js.num 3000 ∧
      row2.category_id = Js.str "tech" ∧
      row2.category_name = Js.str "Tech" ∧
      row2.last_updated = 2 := by
  obtain ⟨r2, hmem, h1, h2, h3, h4, h5, h6, h7⟩ :=
    upsertCategory_preserves_snapshot_columns 2 "AAPL" (Js.str "tech") (Js.str "Tech")
      [stocksRowApple] stocksRowApple (List.mem_singleton.mpr rfl) (by decide)
  exact ⟨r2, hmem, h1.trans rfl, h2.trans rfl, h3.trans rfl, h4.trans rfl, h5, h6, h7⟩

/-- C2 counterexample: with the first sub-document's upsert throwing and a
second sub-document present, the per-symbol loop does NOT continue to the
next sub-document: position 1 is never attempted and the process exits —
refuting the claim that the loop continues after a write failure. -/
theorem mainLoop_failure_does_not_continue :
    (runSymbolImport [SubDocFate.upsertThrows, SubDocFate.upsertOk]).processExited = true ∧
    1 ∉ (runSymbolImport [SubDocFate.upsertThrows, SubDocFate.upsertOk]).attempted := by
  decide

end StockManager
